import Mathlib

/-!
Shallow embedding of the HostRegister rendezvous server (src/main.rs, src/proto.rs).

Maps (Rust HashMap) are modelled as association lists keyed by String with
lookup/insert/remove; SystemTime is modelled as a Nat number of seconds, so
`t.elapsed()` at time `now` is `now - t` (truncated subtraction, matching a
monotone clock).  Wire messages are the proto.rs MsgType enum; serde_json
serialization of these variants never fails and never yields an empty string,
so a successful send of message m to target t is recorded as the pair (m, t).
-/

namespace HostRegister

/-- Wire message variants, from proto.rs MsgType. -/
inductive MsgType where
  | PingRequest
  | PingResponse
  | HostRegisterRequest
  | HostRegisterResponse (host_code : String)
  | HostLookupRequest (host_code : String)
  | HostLookupResponse (success : Bool) (host_info : String)
  | ClientLookupResponse (client_info : String)
deriving DecidableEq, Repr

/-- Host record, from proto.rs `struct Host`. -/
structure Host where
  id : String
  addr : String
  last_sent_ping : Nat
  last_received_ping : Nat
  delete_later : Bool
deriving DecidableEq, Repr

/-- proto.rs: `const PING_INTERVAL: Duration = Duration::from_secs(10)`. -/
def PING_INTERVAL : Nat := 10

/-- proto.rs: `const PEER_REMOVAL_TIMEMOUT: Duration = Duration::from_secs(30)`. -/
def PEER_REMOVAL_TIMEMOUT : Nat := 30

/-- Association-list model of a HashMap keyed by String. -/
abbrev AList (β : Type) := List (String × β)

def alook {β : Type} (m : AList β) (k : String) : Option β :=
  (m.find? (fun p => p.1 == k)).map Prod.snd

def aremove {β : Type} (m : AList β) (k : String) : AList β :=
  m.filter (fun p => p.1 != k)

def ainsert {β : Type} (m : AList β) (k : String) (v : β) : AList β :=
  (k, v) :: aremove m k

/-- The server's mutable state: main.rs `host_register` (id → Host),
`host_map` (address → id), and proto.rs `EnetHost.peer_activity_map`
(address → last-seen time). -/
structure ServerState where
  host_register : AList Host
  host_map : AList String
  peer_activity_map : AList Nat
deriving DecidableEq, Repr

/-- A list of performed sends: message together with the target address. -/
abbrev SendList := List (MsgType × String)

/-- proto.rs `Host::should_send_ping`: true when the elapsed time since
`last_sent_ping` strictly exceeds PING_INTERVAL, bumping the timestamp. -/
def should_send_ping (h : Host) (now : Nat) : Bool × Host :=
  if PING_INTERVAL < now - h.last_sent_ping then
    (true, { h with last_sent_ping := now })
  else (false, h)

/-- proto.rs `Host::should_be_removed`: sets `delete_later` to whether the
elapsed time since `last_received_ping` is at least PEER_REMOVAL_TIMEMOUT. -/
def should_be_removed (h : Host) (now : Nat) : Bool × Host :=
  let d := decide (PEER_REMOVAL_TIMEMOUT ≤ now - h.last_received_ping)
  (d, { h with delete_later := d })

/-- The per-host update performed by the marking loop of the sweep:
`should_send_ping` followed by `should_be_removed` (main.rs lines 28-42). -/
def sweepHost (now : Nat) (h : Host) : Host :=
  (should_be_removed (should_send_ping h now).2 now).2

/-- main.rs lines 28-42: the marking loop over `host_register`.  For each host
it may emit a PingResponse, and when `should_be_removed` fires it removes the
host's address from `host_map` immediately.  Returns the updated register,
the updated `host_map`, and the pings sent. -/
def markPass (now : Nat) : AList Host → AList String → AList Host × AList String × SendList
  | [], hm => ([], hm, [])
  | (k, h) :: rest, hm =>
    let sp := should_send_ping h now
    let sends1 : SendList := if sp.1 then [(MsgType.PingResponse, sp.2.addr)] else []
    let br := should_be_removed sp.2 now
    let hm1 := if br.1 then aremove hm br.2.addr else hm
    let r := markPass now rest hm1
    ((k, br.2) :: r.1, r.2.1, sends1 ++ r.2.2)

/-- main.rs lines 44-58: `host_register.retain(|_, host| !host.delete_later)`,
disconnecting each deleted host's peer.  Returns the retained register and the
addresses disconnected. -/
def retainPass (reg : AList Host) : AList Host × List String :=
  (reg.filter (fun p => !p.2.delete_later),
   (reg.filter (fun p => p.2.delete_later)).map (fun p => p.2.addr))

/-- One full liveness sweep: marking loop then retain, as executed at the top
of every loop iteration in main.rs.  Returns the new state, the pings sent,
and the addresses disconnected. -/
def sweep (st : ServerState) (now : Nat) : ServerState × SendList × List String :=
  let m := markPass now st.host_register st.host_map
  let r := retainPass m.1
  ({ st with host_register := r.1, host_map := m.2.1 }, m.2.2, r.2)

/-- main.rs lines 78-94: the PingRequest handler.  If the sender owns no host
id, nothing happens; if it owns an id present in the register, that host's
`last_received_ping` is bumped and a PingResponse is sent back. -/
def handlePing (st : ServerState) (addr : String) (now : Nat) : ServerState × SendList :=
  match alook st.host_map addr with
  | none => (st, [])
  | some hostId =>
    match alook st.host_register hostId with
    | none => (st, [])
    | some h =>
      ({ st with host_register :=
          ainsert st.host_register hostId { h with last_received_ping := now } },
       [(MsgType.PingResponse, addr)])

/-- main.rs lines 105-107: the nanoid retry loop, taking the first candidate
id not already present in the register.  `none` models the loop never
finding a fresh id within the given candidate stream. -/
def firstFresh (reg : AList Host) : List String → Option String
  | [] => none
  | c :: rest => if (alook reg c).isNone then some c else firstFresh reg rest

/-- main.rs lines 96-131: the HostRegisterRequest handler.  `cands` is the
stream of candidate ids the nanoid generator would produce during this call;
it is consumed only on the new-host branch.  On the repeated branch the
existing id is reused and only that host's `last_received_ping` is bumped;
on the new branch a fresh host is inserted into both indices and the sender's
address is dropped from the peer activity map. -/
def handleRegister (st : ServerState) (addr : String) (now : Nat) (cands : List String) :
    Option (ServerState × SendList) :=
  match alook st.host_map addr with
  | some hostId =>
    let reg := match alook st.host_register hostId with
      | some h => ainsert st.host_register hostId { h with last_received_ping := now }
      | none => st.host_register
    some ({ st with host_register := reg },
      [(MsgType.HostRegisterResponse hostId, addr)])
  | none =>
    match firstFresh st.host_register cands with
    | none => none
    | some newId =>
      some ({ host_register := ainsert st.host_register newId
                ⟨newId, addr, now, now, false⟩,
              host_map := ainsert st.host_map addr newId,
              peer_activity_map := aremove st.peer_activity_map addr },
        [(MsgType.HostRegisterResponse newId, addr)])

/-- The server state produced by a successful new-host registration of `addr`
at time `now` under the generated code `c` (the new-host branch of
`handleRegister`). -/
def registerNew (st : ServerState) (addr : String) (now : Nat) (c : String) : ServerState :=
  { host_register := ainsert st.host_register c ⟨c, addr, now, now, false⟩,
    host_map := ainsert st.host_map addr c,
    peer_activity_map := aremove st.peer_activity_map addr }

/-- main.rs lines 134-171: the HostLookupRequest handler.  Empty code: failure
reply to the requester only.  Registered code: ClientLookupResponse to the
host carrying the requester's address, then a success reply carrying the
host's address.  Unknown code: failure reply only.  The registry is only
read, never written. -/
def handleLookup (st : ServerState) (addr : String) (code : String) : ServerState × SendList :=
  if code = "" then
    (st, [(MsgType.HostLookupResponse false "", addr)])
  else
    match alook st.host_register code with
    | some h =>
      (st, [(MsgType.ClientLookupResponse addr, h.addr),
            (MsgType.HostLookupResponse true h.addr, addr)])
    | none => (st, [(MsgType.HostLookupResponse false "", addr)])

/-- main.rs line 23: the receive buffer is 1024 bytes. -/
def MAIN_BUF_SIZE : Nat := 1024

/-- proto.rs lines 191-210: the Event::Receive arm of `EnetHost::poll_messages`.
`buf[..data.len()].copy_from_slice(data)` panics (modelled as `none`) whenever
the payload is longer than the buffer; otherwise the payload overwrites the
buffer prefix, the sender's peer-activity entry is refreshed, and the payload
length with the sender's address is returned. -/
def poll_receive (buf data : List Nat) (pam : AList Nat) (sender : String) (now : Nat) :
    Option (List Nat × AList Nat × Nat × String) :=
  if data.length ≤ buf.length then
    some (data ++ buf.drop data.length, ainsert pam sender now, data.length, sender)
  else none

/-- Receipt of a PingRequest over the enet transport followed by its dispatch:
`poll_messages` refreshes the sender's peer-activity entry (proto.rs lines
204-208), then main.rs runs the PingRequest handler. -/
def pingStep (st : ServerState) (sender : String) (now : Nat) : ServerState × SendList :=
  handlePing { st with peer_activity_map := ainsert st.peer_activity_map sender now }
    sender now

/-- proto.rs lines 89-102: `EnetHost::check_and_cleanup_clients`.  Walks the
connected peers; any peer whose activity entry is older than
PEER_REMOVAL_TIMEMOUT is disconnected and dropped from the activity map.
Returns the remaining map and the addresses disconnected. -/
def check_and_cleanup_clients (peers : List String) (pam : AList Nat) (now : Nat) :
    AList Nat × List String :=
  peers.foldl (fun acc a =>
    match alook acc.1 a with
    | some t =>
      if PEER_REMOVAL_TIMEMOUT < now - t then (aremove acc.1 a, acc.2 ++ [a]) else acc
    | none => acc) (pam, [])

/-- The marking loop of main.rs lines 28-42 again, but with the send performed
through a fallible transport whose result is `.unwrap()`ed as in main.rs line
34: an `Except.error` from a single ping send aborts the whole pass (`none`
models the panic that terminates the process). -/
def markPassSend (send : String → Except String Nat) (now : Nat) :
    AList Host → AList String → Option (AList Host × AList String)
  | [], hm => some ([], hm)
  | (k, h) :: rest, hm =>
    let sp := should_send_ping h now
    match (if sp.1 then send sp.2.addr else Except.ok 0) with
    | Except.error _ => none
    | Except.ok _ =>
      let br := should_be_removed sp.2 now
      let hm1 := if br.1 then aremove hm br.2.addr else hm
      (markPassSend send now rest hm1).map (fun r => ((k, br.2) :: r.1, r.2))

/-- One enet peer: its address and whether `peer.send_packet` would succeed. -/
structure PeerInfo where
  addr : String
  send_ok : Bool
deriving DecidableEq, Repr

/-- proto.rs lines 156-172: `EnetHost::send_to_target`.  The first peer whose
address matches the target gets the packet: Ok(len) if `send_packet` succeeds,
Ok(0) if it fails.  When no peer matches, the loop falls through and the
function returns Ok(buf.len()). -/
def enet_send_to_target (peers : List PeerInfo) (buf : List Nat) (target : String) :
    Except String Nat :=
  match peers.find? (fun p => p.addr == target) with
  | some p => if p.send_ok then Except.ok buf.length else Except.ok 0
  | none => Except.ok buf.length

/-- Number of hosts in the register whose address field equals `a`. -/
def countAddr (reg : AList Host) (a : String) : Nat :=
  reg.countP (fun p => p.2.addr == a)

/-- The empty server state. -/
def stEmpty : ServerState := ⟨[], [], []⟩

/-- A concrete registered host used to exercise the operations. -/
def hostA : Host := ⟨"C0DE0001", "127.0.0.1:4000", 0, 0, false⟩

/-- A concrete state holding exactly the registered host `hostA`. -/
def stOneHost : ServerState :=
  ⟨[("C0DE0001", hostA)], [("127.0.0.1:4000", "C0DE0001")], []⟩

lemma alook_ainsert_self {β : Type} (m : AList β) (k : String) (v : β) :
    alook (ainsert m k v) k = some v := by
  simp [alook, ainsert]

lemma alook_eq_none_iff {β : Type} (m : AList β) (a : String) :
    alook m a = none ↔ ∀ p ∈ m, p.1 ≠ a := by
  simp [alook, List.find?_eq_none]

lemma alook_aremove_self {β : Type} (m : AList β) (k : String) :
    alook (aremove m k) k = none := by
  rw [alook_eq_none_iff]
  intro p hp
  have hne := (List.mem_filter.mp hp).2
  simpa using hne

lemma alook_aremove_none {β : Type} (m : AList β) (k a : String)
    (h : alook m a = none) : alook (aremove m k) a = none := by
  rw [alook_eq_none_iff] at h ⊢
  intro p hp
  exact h p (List.mem_filter.mp hp).1

lemma aremove_cons_self {β : Type} (k : String) (v : β) (m : AList β) :
    aremove ((k, v) :: m) k = aremove m k := by
  simp [aremove]

lemma aremove_aremove {β : Type} (m : AList β) (k : String) :
    aremove (aremove m k) k = aremove m k := by
  simp [aremove, List.filter_filter]

lemma sweepHost_addr (now : Nat) (h : Host) : (sweepHost now h).addr = h.addr := by
  unfold sweepHost should_be_removed should_send_ping
  split <;> rfl

lemma sweepHost_lrp (now : Nat) (h : Host) :
    (sweepHost now h).last_received_ping = h.last_received_ping := by
  unfold sweepHost should_be_removed should_send_ping
  split <;> rfl

lemma sweepHost_delete (now : Nat) (h : Host) :
    (sweepHost now h).delete_later =
      decide (PEER_REMOVAL_TIMEMOUT ≤ now - h.last_received_ping) := by
  unfold sweepHost should_be_removed should_send_ping
  split <;> rfl

lemma mark_fires (now : Nat) (h : Host) :
    (should_be_removed (should_send_ping h now).2 now).1 =
      decide (PEER_REMOVAL_TIMEMOUT ≤ now - h.last_received_ping) := by
  unfold should_be_removed should_send_ping
  split <;> rfl

lemma markPass_reg (now : Nat) (l : AList Host) :
    ∀ hm : AList String,
      (markPass now l hm).1 = l.map (fun p => (p.1, sweepHost now p.2)) := by
  induction l with
  | nil => intro hm; rfl
  | cons q rest ih =>
    intro hm
    obtain ⟨k, h⟩ := q
    simp [markPass, sweepHost, ih]

lemma markPass_hm_none (now : Nat) (l : AList Host) :
    ∀ (hm : AList String) (a : String), alook hm a = none →
      alook (markPass now l hm).2.1 a = none := by
  induction l with
  | nil => intro hm a ha; exact ha
  | cons q rest ih =>
    intro hm a ha
    obtain ⟨k, h⟩ := q
    simp only [markPass]
    apply ih
    split
    · exact alook_aremove_none _ _ _ ha
    · exact ha

lemma markPass_hm_removed (now : Nat) (l : AList Host) :
    ∀ (hm : AList String) (a : String),
      ((∃ p ∈ l, p.2.addr = a ∧
          PEER_REMOVAL_TIMEMOUT ≤ now - p.2.last_received_ping)
        ∨ alook hm a = none) →
      alook (markPass now l hm).2.1 a = none := by
  induction l with
  | nil =>
    rintro hm a (⟨p, hp, _⟩ | hnone)
    · exact absurd hp (List.not_mem_nil p)
    · exact hnone
  | cons q rest ih =>
    rintro hm a hcase
    obtain ⟨k, h⟩ := q
    simp only [markPass]
    apply ih
    rcases hcase with ⟨p, hp, haddr, ht⟩ | hnone
    · rcases List.mem_cons.mp hp with heq | hmem
      · right
        have hc : (should_be_removed (should_send_ping h now).2 now).1 = true := by
          rw [mark_fires]
          subst heq
          exact decide_eq_true ht
        rw [if_pos hc]
        have haddr2 : (should_be_removed (should_send_ping h now).2 now).2.addr = a := by
          have := sweepHost_addr now h
          unfold sweepHost at this
          rw [this]
          subst heq
          exact haddr
        rw [haddr2]
        exact alook_aremove_self _ _
      · left
        exact ⟨p, hmem, haddr, ht⟩
    · right
      split
      · exact alook_aremove_none _ _ _ hnone
      · exact hnone

/-- C8 counterexample: the claim states a removal timeout of 40 seconds, but
the configured constant PEER_REMOVAL_TIMEMOUT is 30 seconds. -/
theorem removal_timeout_is_not_forty : PEER_REMOVAL_TIMEMOUT ≠ 40 := by decide

/-- C8 (amended): the configured liveness constants are a ping interval of 10
seconds and a removal timeout of 30 seconds, and the removal timeout exceeds
the ping interval by a factor of 3, within the 2-4 missed-round-trip range. -/
theorem liveness_constants :
    PING_INTERVAL = 10 ∧ PEER_REMOVAL_TIMEMOUT = 30 ∧
    2 * PING_INTERVAL ≤ PEER_REMOVAL_TIMEMOUT ∧
    PEER_REMOVAL_TIMEMOUT ≤ 4 * PING_INTERVAL := by decide

/-- C3: a HostLookupRequest whose code is empty (or absent, which parses to
the empty string) and one whose code is not in the register both produce the
identical failure reply to the requester, send no ClientLookupResponse, and
leave the server state unchanged. -/
theorem lookup_miss_sends (st : ServerState) (addr code : String)
    (hmiss : code = "" ∨ alook st.host_register code = none) :
    handleLookup st addr code = (st, [(MsgType.HostLookupResponse false "", addr)]) := by
  rcases hmiss with hc | hmiss
  · simp [handleLookup, hc]
  · by_cases hc : code = ""
    · simp [handleLookup, hc]
    · simp [handleLookup, hc, hmiss]

/-- C3 witness: looking up the unknown code ZZ in the empty registry yields
exactly the failure reply. -/
theorem lookup_miss_sends_witness :
    handleLookup stEmpty "127.0.0.1:5000" "ZZ" =
      (stEmpty, [(MsgType.HostLookupResponse false "", "127.0.0.1:5000")]) :=
  lookup_miss_sends stEmpty "127.0.0.1:5000" "ZZ" (Or.inr rfl)

/-- C2: a HostLookupRequest whose (nonempty) code is registered sends exactly
two messages: one ClientLookupResponse to the resolved host carrying the
requester's address, and the success reply to the requester carrying the
host's address; the server state is unchanged. -/
theorem lookup_hit_sends (st : ServerState) (addr code : String) (h : Host)
    (hc : code ≠ "") (hreg : alook st.host_register code = some h) :
    handleLookup st addr code =
      (st, [(MsgType.ClientLookupResponse addr, h.addr),
            (MsgType.HostLookupResponse true h.addr, addr)]) := by
  simp [handleLookup, hc, hreg]

/-- C2 witness: looking up hostA's code from a second address sends the
ClientLookupResponse to hostA and the success reply to the requester. -/
theorem lookup_hit_sends_witness :
    handleLookup stOneHost "127.0.0.1:5000" "C0DE0001" =
      (stOneHost, [(MsgType.ClientLookupResponse "127.0.0.1:5000", "127.0.0.1:4000"),
                   (MsgType.HostLookupResponse true "127.0.0.1:4000", "127.0.0.1:5000")]) :=
  lookup_hit_sends stOneHost "127.0.0.1:5000" "C0DE0001" hostA (by decide) rfl

/-- C5 counterexample: sending 3 bytes to a destination with no live enet
connection returns success with the full buffer length, Ok(3), not Ok(0). -/
theorem enet_send_no_peer_counterexample :
    enet_send_to_target [] [1, 2, 3] "127.0.0.1:9000" = Except.ok 3 ∧ (3 : Nat) ≠ 0 :=
  ⟨rfl, by decide⟩

/-- C5 (amended): `send_to_target` on the enet transport never returns an
error; when no connected peer matches the destination it returns success
reporting the full buffer length, and Ok(0) arises only when a matching
peer's `send_packet` fails. -/
theorem enet_send_result (peers : List PeerInfo) (buf : List Nat) (target : String) :
    (peers.find? (fun p => p.addr == target) = none →
      enet_send_to_target peers buf target = Except.ok buf.length) ∧
    (∀ q, peers.find? (fun p => p.addr == target) = some q →
      enet_send_to_target peers buf target =
        Except.ok (if q.send_ok then buf.length else 0)) := by
  constructor
  · intro hn; simp [enet_send_to_target, hn]
  · intro q hq
    by_cases hs : q.send_ok <;> simp [enet_send_to_target, hq, hs]

/-- C5 witness: with no peers at all, a two-byte send reports two bytes. -/
theorem enet_send_result_witness :
    enet_send_to_target [] [7, 8] "127.0.0.1:9000" = Except.ok 2 :=
  (enet_send_result [] [7, 8] "127.0.0.1:9000").1 rfl

/-- C4 (code evaluated at the failing input): when the single host is due a
ping at time 11 and the transport send fails with an I/O error, the
`.unwrap()` in the ping sweep aborts the whole pass — the per-tick step is
not total, the process panics instead of continuing. -/
theorem ping_send_failure_aborts_tick :
    markPassSend (fun _ => Except.error "io error") 11
      [("C0DE0001", hostA)] [("127.0.0.1:4000", "C0DE0001")] = none := by decide

/-- C10: the Event::Receive arm of `poll_messages` is partial in the packet
size: with the main loop's 1024-byte buffer, a payload longer than 1024
bytes panics in the slice copy (modelled as none), while any payload that
fits is copied over the buffer prefix, refreshes the sender's activity
entry, and returns the payload length with the sender's address. -/
theorem poll_receive_overflow (buf data : List Nat) (pam : AList Nat)
    (sender : String) (now : Nat) :
    (buf.length = MAIN_BUF_SIZE → MAIN_BUF_SIZE < data.length →
      poll_receive buf data pam sender now = none) ∧
    (data.length ≤ buf.length →
      poll_receive buf data pam sender now =
        some (data ++ buf.drop data.length, ainsert pam sender now,
              data.length, sender)) := by
  constructor
  · intro hb hd
    have hlt : ¬ data.length ≤ buf.length := by omega
    simp [poll_receive, hlt]
  · intro hle
    simp [poll_receive, hle]

set_option maxRecDepth 4000 in
/-- C10 witness: a 1025-byte payload overflows the 1024-byte buffer and
panics, while a 1-byte payload into a 2-byte buffer succeeds. -/
theorem poll_receive_overflow_witness :
    poll_receive (List.replicate 1024 0) (List.replicate 1025 7) [] "s" 0 = none ∧
    poll_receive [0, 0] [9] [] "s" 3 = some ([9, 0], [("s", 3)], 1, "s") :=
  ⟨(poll_receive_overflow (List.replicate 1024 0) (List.replicate 1025 7) [] "s" 0).1
      (by simp [MAIN_BUF_SIZE]) (by simp [MAIN_BUF_SIZE]),
   (poll_receive_overflow [0, 0] [9] [] "s" 3).2 (by decide)⟩

/-- C9 counterexample: a PingRequest from an unregistered address does mutate
state — receiving the packet inserts the sender into the peer activity map
(proto.rs lines 204-208), so the state after the exchange differs from the
state before it. -/
theorem ping_unregistered_mutates_activity :
    (pingStep stEmpty "127.0.0.1:5000" 7).1.peer_activity_map ≠
      stEmpty.peer_activity_map := by decide

/-- C9 (amended): a PingRequest from an address owning no registered host
produces no reply, never auto-registers the sender, and leaves both registry
indices and every host's timestamps unchanged; the only mutation of the
exchange is the peer-activity refresh performed by the receive path itself. -/
theorem ping_unregistered_frame (st : ServerState) (sender : String) (now : Nat)
    (hu : alook st.host_map sender = none) :
    pingStep st sender now =
      ({ st with peer_activity_map := ainsert st.peer_activity_map sender now }, []) := by
  simp [pingStep, handlePing, hu]

/-- C9 witness: a ping from an unknown address into the empty state only
refreshes that address's activity entry and sends nothing. -/
theorem ping_unregistered_frame_witness :
    (pingStep stEmpty "127.0.0.1:5000" 7).2 = [] := by
  rw [ping_unregistered_frame stEmpty "127.0.0.1:5000" 7 rfl]

/-- C6 (code evaluated at the failing input): hostA is registered, yet after
hostA sends one PingRequest the receive path has re-inserted its address into
the peer activity map, and a later idle-connection pruning pass disconnects
the registered host — contradicting the claim (and the code's own comment
that the activity map should only hold clients). -/
theorem registered_host_reenters_activity_map :
    alook stOneHost.host_map "127.0.0.1:4000" = some "C0DE0001" ∧
    (pingStep stOneHost "127.0.0.1:4000" 50).1.peer_activity_map =
      [("127.0.0.1:4000", 50)] ∧
    check_and_cleanup_clients ["127.0.0.1:4000"] [("127.0.0.1:4000", 50)] 81 =
      ([], ["127.0.0.1:4000"]) := by decide

/-- C7 counterexample: with a single host whose last ping is 30 seconds old
and `delete_later` still false, the very sweep invocation that first marks it
already deletes it from both indices and issues the disconnect — eviction
does not wait for the following sweep pass. -/
theorem sweep_deletes_in_marking_tick :
    stOneHost.host_register = [("C0DE0001", hostA)] ∧ hostA.delete_later = false ∧
    (sweep stOneHost 30).1.host_register = [] ∧
    (sweep stOneHost 30).1.host_map = [] ∧
    (sweep stOneHost 30).2.2 = ["127.0.0.1:4000"] := by decide

/-- C7 (amended): eviction completes within the single sweep that observes
the timeout: every host surviving the sweep is within the removal timeout,
and every host whose last received ping is at least the removal timeout old
is disconnected and absent from the reverse index after that same sweep (its
reverse-index entry is removed during the marking pass, the forward-index
entry and the connection in the retain pass that immediately follows). -/
theorem sweep_evicts_timed_out (st : ServerState) (now : Nat) :
    (∀ q ∈ (sweep st now).1.host_register,
        now - q.2.last_received_ping < PEER_REMOVAL_TIMEMOUT) ∧
    (∀ p ∈ st.host_register,
        PEER_REMOVAL_TIMEMOUT ≤ now - p.2.last_received_ping →
        p.2.addr ∈ (sweep st now).2.2 ∧
        alook (sweep st now).1.host_map p.2.addr = none) := by
  constructor
  · intro q hq
    have hreg : (sweep st now).1.host_register =
        (st.host_register.map (fun p => (p.1, sweepHost now p.2))).filter
          (fun p => !p.2.delete_later) := by
      simp [sweep, retainPass, markPass_reg]
    rw [hreg] at hq
    obtain ⟨hq1, hq2⟩ := List.mem_filter.mp hq
    obtain ⟨p, hp, hqe⟩ := List.mem_map.mp hq1
    subst hqe
    simp only [sweepHost_delete] at hq2
    simp only [sweepHost_lrp]
    simp at hq2
    omega
  · intro p hp ht
    constructor
    · have hdisc : (sweep st now).2.2 =
          ((st.host_register.map (fun p => (p.1, sweepHost now p.2))).filter
            (fun p => p.2.delete_later)).map (fun p => p.2.addr) := by
        simp [sweep, retainPass, markPass_reg]
      rw [hdisc]
      refine List.mem_map.mpr ⟨(p.1, sweepHost now p.2), ?_, sweepHost_addr now p.2⟩
      refine List.mem_filter.mpr ⟨List.mem_map.mpr ⟨p, hp, rfl⟩, ?_⟩
      simp [sweepHost_delete, ht]
    · exact markPass_hm_removed now st.host_register st.host_map p.2.addr
        (Or.inl ⟨p, hp, rfl, ht⟩)

/-- C7 witness: hostA, 30 seconds silent, is disconnected by the sweep at
time 30. -/
theorem sweep_evicts_timed_out_witness :
    "127.0.0.1:4000" ∈ (sweep stOneHost 30).2.2 :=
  ((sweep_evicts_timed_out stOneHost 30).2 ("C0DE0001", hostA)
    (by decide) (by decide)).1

/-- C1: registering a fresh address yields a new host under a fresh code, and
a second HostRegisterRequest from that address (no intervening eviction)
returns the exact same code, changes nothing but that host's
`last_received_ping` (now2 replacing now1, `last_sent_ping` and both indices
and the activity map untouched), and leaves the register with exactly one
host for that address. -/
theorem register_idempotent (st0 : ServerState) (addr : String) (now1 now2 : Nat)
    (cands cands2 : List String) (c : String)
    (hmap0 : alook st0.host_map addr = none)
    (hcnt0 : countAddr st0.host_register addr = 0)
    (hfresh : firstFresh st0.host_register cands = some c) :
    handleRegister st0 addr now1 cands =
      some (registerNew st0 addr now1 c, [(MsgType.HostRegisterResponse c, addr)]) ∧
    handleRegister (registerNew st0 addr now1 c) addr now2 cands2 =
      some ({ registerNew st0 addr now1 c with
              host_register := ainsert (registerNew st0 addr now1 c).host_register c
                ⟨c, addr, now1, now2, false⟩ },
        [(MsgType.HostRegisterResponse c, addr)]) ∧
    countAddr (ainsert (registerNew st0 addr now1 c).host_register c
      ⟨c, addr, now1, now2, false⟩) addr = 1 := by
  refine ⟨?_, ?_, ?_⟩
  · simp [handleRegister, hmap0, hfresh, registerNew]
  · have h1 : alook (registerNew st0 addr now1 c).host_map addr = some c :=
      alook_ainsert_self _ _ _
    have h2 : alook (registerNew st0 addr now1 c).host_register c =
        some ⟨c, addr, now1, now1, false⟩ :=
      alook_ainsert_self _ _ _
    simp [handleRegister, h1, h2]
  · have hsq : ainsert (registerNew st0 addr now1 c).host_register c
        ⟨c, addr, now1, now2, false⟩ =
        (c, (⟨c, addr, now1, now2, false⟩ : Host)) :: aremove st0.host_register c := by
      show ainsert (ainsert st0.host_register c ⟨c, addr, now1, now1, false⟩) c
          ⟨c, addr, now1, now2, false⟩ = _
      unfold ainsert
      rw [aremove_cons_self, aremove_aremove]
    rw [hsq]
    have hle : countAddr (aremove st0.host_register c) addr ≤
        countAddr st0.host_register addr :=
      List.Sublist.countP_le _ (List.filter_sublist _)
    have h0 : countAddr (aremove st0.host_register c) addr = 0 := by omega
    simp only [countAddr, List.countP_cons] at h0 ⊢
    simp [h0]

/-- C1 witness: registering the same address twice in the empty state leaves
the second request resolvable (the second register call succeeds). -/
theorem register_idempotent_witness :
    (handleRegister (registerNew stEmpty "127.0.0.1:4000" 1 "AB12CD34")
      "127.0.0.1:4000" 2 []).isSome = true := by
  have h := register_idempotent stEmpty "127.0.0.1:4000" 1 2 ["AB12CD34"] []
    "AB12CD34" rfl rfl rfl
  rw [h.2.1]
  rfl

end HostRegister
